import Mathlib

/-
Shallow embedding of the session/protocol layer of hpp-manipulation-corba.

Embedded source files:
  * robot.impl.cc (body of hpp::manipulation::impl::Robot and its local
    helper functions getOrCreateRobot, getRobotOrThrow,
    getJointByBodyNameOrThrow);
  * hpp-manipulation-corba.cc (the server composition in main);
  * problem.idl (interface Problem; its implementation file problem.impl.cc
    is not among the provided sources, so the operations it declares are
    modelled from the spec where a claim needs them).

External collaborator libraries (hpp-fcl, hpp-model, hpp-manipulation,
hpp-corbaserver) are modelled at the interface the embedded code calls:
devices, joints and the problem-solver registry become explicit record
state, the model-loading and path-building collaborator calls become
function parameters, and floating-point numbers become rationals.
-/

namespace Hpp

/-- Wire representation of a rigid transform: the CORBA type Transform_,
an array of seven floating values, modelled with rational components. -/
structure Transform_ where
  e0 : ℚ
  e1 : ℚ
  e2 : ℚ
  e3 : ℚ
  e4 : ℚ
  e5 : ℚ
  e6 : ℚ
deriving DecidableEq

/-- Translation vector fcl::Vec3f: the three constructor arguments are the
x, y, z coordinates. -/
structure Vec3f where
  x : ℚ
  y : ℚ
  z : ℚ
deriving DecidableEq

/-- Modelled from the spec: the quaternion type fcl::Quaternion3f of the
external transform library (its sources are not part of this repository;
the spec scopes transform math to a collaborator and fixes the wire
quaternion component order as x, y, z, w). Accordingly the four positional
constructor arguments are labelled x, y, z, w in that order, and indexed
access used by the source (getQuatRotation()[0..3]) returns the components
in that same constructor order. -/
structure Quaternion3f where
  x : ℚ
  y : ℚ
  z : ℚ
  w : ℚ
deriving DecidableEq

/-- Internal rigid transform fcl::Transform3f: a quaternion rotation and a
translation vector, as built by the constructor Transform3f(q, v). -/
structure Transform3f where
  q : Quaternion3f
  v : Vec3f
deriving DecidableEq

/-- Result of fcl::Transform3f::setIdentity: identity rotation and zero
translation (identity quaternion written under the x, y, z, w labelling). -/
def Transform3f.setIdentity : Transform3f :=
  { q := { x := 0, y := 0, z := 0, w := 1 }, v := { x := 0, y := 0, z := 0 } }

/-- Decoding of the wire transform exactly as every robot.impl.cc operation
does it: Quaternion3f q (p[3], p[4], p[5], p[6]); Vec3f v (p[0], p[1], p[2]);
Transform3f (q, v). -/
def decodeTransform (p : Transform_) : Transform3f :=
  { q := { x := p.e3, y := p.e4, z := p.e5, w := p.e6 },
    v := { x := p.e0, y := p.e1, z := p.e2 } }

/-- Encoding of an internal transform back onto the wire exactly as
Robot::getRootJointPosition does it: res[0..2] from the translation,
res[3..6] from the quaternion components in constructor order. -/
def encodeTransform (T : Transform3f) : Transform_ :=
  { e0 := T.v.x, e1 := T.v.y, e2 := T.v.z,
    e3 := T.q.x, e4 := T.q.y, e5 := T.q.z, e6 := T.q.w }

/-- Joint of the collaborator kinematic library (hpp-model), at the
interface robot.impl.cc uses: a name, whether it is an anchor joint, and
its position in the parent frame. -/
structure Joint where
  name : String
  isAnchor : Bool
  positionInParentFrame : Transform3f
deriving DecidableEq

/-- Handle (hpp-manipulation): name, local pose on the attachment joint,
the attachment joint (identified by its name), and whether it is an axial
handle (AxialHandle::create) or a plain one (Handle::create). -/
structure Handle where
  name : String
  localPosition : Transform3f
  jointName : String
  axial : Bool
deriving DecidableEq

/-- Gripper (hpp-model): name, attachment joint, local pose, and the list
of joints in collision; entries are joint names, with none standing for a
null JointPtr_t as pushed by Robot::addGripper when a body name does not
resolve. -/
structure Gripper where
  name : String
  jointName : String
  localPosition : Transform3f
  jointsInCollision : List (Option String)
deriving DecidableEq

/-- Collision object of the collaborator model library: a name, an opaque
geometry payload, and a transform, mirroring
CollisionObject::create(geometry, transform, name). -/
structure CollisionObject where
  name : String
  geom : Nat
  tf : Transform3f
deriving DecidableEq

/-- Opaque triangle-list payload stored under a name
(Container of TriangleList in loadEnvironmentModel). -/
structure TriangleList where
  payload : Nat
deriving DecidableEq

/-- Lookup in an association list keyed by strings; the first binding for a
key wins, so consing a new binding realises overwrite-by-key. -/
def assocLookup {α : Type} (k : String) : List (String × α) → Option α
  | [] => none
  | (k2, v) :: rest => if k2 = k then some v else assocLookup k rest

/-- Overwrite-or-insert in an association list keyed by strings, the
std::map operator[] assignment. -/
def assocSet {α : Type} (k : String) (v : α) : List (String × α) → List (String × α)
  | [] => [(k, v)]
  | (k2, v2) :: rest => if k2 = k then (k, v) :: rest else (k2, v2) :: assocSet k v rest

/-- Device (hpp-manipulation, a.k.a. Robot) at the interface robot.impl.cc
uses: a name, an optional root joint, the immediate children of the root
joint (the subtrees scanned by get/setRootJointPosition), the body-name to
joint resolution map (getJointByBodyName), the named handles and grippers
(add overwrites by key), and for environment devices the collision objects
and named triangle lists the loader filled in. -/
structure Device where
  name : String
  rootJoint : Option Joint
  childJoints : List Joint
  bodyToJoint : List (String × Joint)
  handles : List (String × Handle)
  grippers : List (String × Gripper)
  collisionObjects : List CollisionObject
  triangleLists : List (String × TriangleList)
deriving DecidableEq

/-- Device::create(name): a fresh device with no root joint and empty
containers. -/
def Device.create (n : String) : Device :=
  { name := n, rootJoint := none, childJoints := [], bodyToJoint := [],
    handles := [], grippers := [], collisionObjects := [], triangleLists := [] }

/-- Device::getJointByBodyName: resolve a joint from the name of the body
it carries; returns a null pointer (none) when no body has that name. -/
def Device.getJointByBodyName (d : Device) (n : String) : Option Joint :=
  assocLookup n d.bodyToJoint

/-- Device::add for handles (keyed container, overwrite by key). -/
def Device.addHandleEntry (d : Device) (n : String) (h : Handle) : Device :=
  { d with handles := (n, h) :: d.handles }

/-- Device::add for grippers (keyed container, overwrite by key). -/
def Device.addGripperEntry (d : Device) (n : String) (g : Gripper) : Device :=
  { d with grippers := (n, g) :: d.grippers }

/-- Opaque path artifact; the ProblemSolver keeps an append-only,
index-addressed list of these. -/
structure Path where
  payload : Nat
deriving DecidableEq

/-- Named constraints produced by the grasp-creation protocol, modelled
from the spec: the first constraint is the full pose constraint minus the
handle's free degree of freedom, the complement covers exactly the freed
degree of freedom. -/
inductive Constraint where
  | grasp (gripperName handleName : String) (axial : Bool)
  | graspComplement (gripperName handleName : String) (axial : Bool)
deriving DecidableEq

/-- Problem-session state (one hpp ProblemSolver) at the interface the
embedded code uses: the lazily created robot, the obstacle list and named
triangle lists filled by loadEnvironmentModel, the named-constraint map,
the append-only path list, and a counter of resetProblem() collaborator
calls (the observable trace of that trigger). -/
structure ProblemSolver where
  robot : Option Device
  resetCount : Nat
  obstacles : List CollisionObject
  triangleLists : List (String × TriangleList)
  constraints : List (String × Constraint)
  paths : List Path
deriving DecidableEq

/-- A freshly constructed, empty problem session. -/
def ProblemSolver.empty : ProblemSolver :=
  { robot := none, resetCount := 0, obstacles := [], triangleLists := [],
    constraints := [], paths := [] }

/-- ProblemSolver::resetProblem, a collaborator call of the planning
engine; modelled by its observable occurrence (the counter increments). -/
def ProblemSolver.resetProblem (ps : ProblemSolver) : ProblemSolver :=
  { ps with resetCount := ps.resetCount + 1 }

/-- getOrCreateRobot (robot.impl.cc): return the session's robot if it
exists; otherwise create a Device named "Robot", give it an anchor root
joint named "base_joint" at the identity transform, store it on the
session and return it. -/
def getOrCreateRobot (p : ProblemSolver) : Device × ProblemSolver :=
  match p.robot with
  | some r => (r, p)
  | none =>
    let rj : Joint := { name := "base_joint", isAnchor := true,
                        positionInParentFrame := Transform3f.setIdentity }
    let r : Device := { Device.create "Robot" with rootJoint := some rj }
    (r, { p with robot := some r })

/-- getRobotOrThrow (robot.impl.cc): the session's robot, or the error
"Robot not found." when it was never created. -/
def getRobotOrThrow (p : ProblemSolver) : Except String Device :=
  match p.robot with
  | some r => .ok r
  | none => .error "Robot not found."

/-- getJointByBodyNameOrThrow (robot.impl.cc): resolve a joint by body
name through the robot, raising "Joint not found." on a null result. -/
def getJointByBodyNameOrThrow (p : ProblemSolver) (n : String) : Except String Joint :=
  match getRobotOrThrow p with
  | .error e => .error e
  | .ok r =>
    match r.getJointByBodyName n with
    | none => .error "Joint not found."
    | some j => .ok j

/-- Robot::insertRobotModel: ensure the session's robot exists
(getOrCreateRobot, a side effect that persists even if the load then
fails), call the collaborator srdf::loadRobotModel on it — passed here as
a function from the device and the six string arguments to either the
grown device or a thrown error — and on success store the grown device and
trigger resetProblem() on the owning session. -/
def Robot.insertRobotModel
    (loadRobotModel : Device → String → String → String → String → String → String →
      Except String Device)
    (robotName rootJointType packageName modelName urdfSuffix srdfSuffix : String)
    (ps : ProblemSolver) : Except String Unit × ProblemSolver :=
  let rp := getOrCreateRobot ps
  match loadRobotModel rp.1 robotName rootJointType packageName modelName urdfSuffix
      srdfSuffix with
  | .error e => (.error e, rp.2)
  | .ok robot2 => (.ok (), ProblemSolver.resetProblem { rp.2 with robot := some robot2 })

/-- Robot::insertObjectModel: same shape as insertRobotModel with the
collaborator srdf::loadObjectModel. -/
def Robot.insertObjectModel
    (loadObjectModel : Device → String → String → String → String → String → String →
      Except String Device)
    (objectName rootJointType packageName modelName urdfSuffix srdfSuffix : String)
    (ps : ProblemSolver) : Except String Unit × ProblemSolver :=
  let rp := getOrCreateRobot ps
  match loadObjectModel rp.1 objectName rootJointType packageName modelName urdfSuffix
      srdfSuffix with
  | .error e => (.error e, rp.2)
  | .ok robot2 => (.ok (), ProblemSolver.resetProblem { rp.2 with robot := some robot2 })

/-- Robot::insertHumanoidModel: same shape as insertRobotModel with the
collaborator srdf::loadHumanoidModel. -/
def Robot.insertHumanoidModel
    (loadHumanoidModel : Device → String → String → String → String → String → String →
      Except String Device)
    (robotName rootJointType packageName modelName urdfSuffix srdfSuffix : String)
    (ps : ProblemSolver) : Except String Unit × ProblemSolver :=
  let rp := getOrCreateRobot ps
  match loadHumanoidModel rp.1 robotName rootJointType packageName modelName urdfSuffix
      srdfSuffix with
  | .error e => (.error e, rp.2)
  | .ok robot2 => (.ok (), ProblemSolver.resetProblem { rp.2 with robot := some robot2 })

/-- Robot::loadEnvironmentModel: build a standalone device named after the
environment model, run the collaborator srdf::loadEnvironmentModel on it,
then register every collision object of that device as an obstacle under
the prefixed name and copy its triangle lists under prefixed names. The
session's robot is never touched and resetProblem() is never called. -/
def Robot.loadEnvironmentModel
    (loadEnvModel : Device → String → String → String → String → Except String Device)
    (package envModelName urdfSuffix srdfSuffix pre : String)
    (ps : ProblemSolver) : Except String Unit × ProblemSolver :=
  match loadEnvModel (Device.create envModelName) package envModelName urdfSuffix
      srdfSuffix with
  | .error e => (.error e, ps)
  | .ok object =>
    let obstacles := object.collisionObjects.map (fun o => { o with name := pre ++ o.name })
    let tls := object.triangleLists.map (fun kv => (pre ++ kv.1, kv.2))
    (.ok (), { ps with obstacles := ps.obstacles ++ obstacles,
                       triangleLists := ps.triangleLists ++ tls })

/-- Character-level prefix test: the first list is a prefix of the second. -/
def leadsWith : List Char → List Char → Bool
  | [], _ => true
  | _ :: _, [] => false
  | p :: ps, c :: cs => if p = c then leadsWith ps cs else false

/-- The C++ test name.compare(0, n.size(), n) == 0: the name starts with
the prefix n. -/
def strStartsWith (s pre : String) : Bool :=
  leadsWith pre.data s.data

/-- The scan both root-joint-position operations perform over the immediate
children of the root joint: the first child whose name starts with the
given prefix (name.compare(0, n.size(), n) == 0) is selected. -/
def scanChildren (pre : String) : List Joint → Option Joint
  | [] => none
  | j :: js => if strStartsWith j.name pre then some j else scanChildren pre js

/-- In-place update of the first prefix-matching child joint's position in
parent frame, as performed by Robot::setRootJointPosition on the joint the
scan selected. -/
def setScanChildren (pre : String) (T : Transform3f) : List Joint → List Joint
  | [] => []
  | j :: js =>
    if strStartsWith j.name pre then { j with positionInParentFrame := T } :: js
    else j :: setScanChildren pre T js

/-- Robot::getRootJointPosition: find the first immediate child of the
root joint whose name starts with the prefix, and encode its position in
parent frame onto the wire. -/
def Robot.getRootJointPosition (robotName : String) (ps : ProblemSolver) :
    Except String Transform_ × ProblemSolver :=
  match getRobotOrThrow ps with
  | .error e => (.error e, ps)
  | .ok robot =>
    match scanChildren robotName robot.childJoints with
    | none => (.error "Root of subtree with the provided prefix not found", ps)
    | some joint => (.ok (encodeTransform joint.positionInParentFrame), ps)

/-- Robot::setRootJointPosition: find the first immediate child of the
root joint whose name starts with the prefix, and overwrite its position
in parent frame with the decoded wire transform (no renormalization of the
quaternion). -/
def Robot.setRootJointPosition (robotName : String) (position : Transform_)
    (ps : ProblemSolver) : Except String Unit × ProblemSolver :=
  match getRobotOrThrow ps with
  | .error e => (.error e, ps)
  | .ok robot =>
    match scanChildren robotName robot.childJoints with
    | none => (.error "Root of subtree with the provided prefix not found", ps)
    | some _ =>
      let robot2 := { robot with
        childJoints := setScanChildren robotName (decodeTransform position) robot.childJoints }
      (.ok (), { ps with robot := some robot2 })

/-- Robot::addHandle: require the robot, resolve the attachment joint by
body name (getJointByBodyNameOrThrow), build a plain Handle with the
decoded local pose and register it under handleName. -/
def Robot.addHandle (linkName handleName : String) (localPosition : Transform_)
    (ps : ProblemSolver) : Except String Unit × ProblemSolver :=
  match getRobotOrThrow ps with
  | .error e => (.error e, ps)
  | .ok robot =>
    match getJointByBodyNameOrThrow ps linkName with
    | .error e => (.error e, ps)
    | .ok joint =>
      let handle : Handle := { name := handleName,
                               localPosition := decodeTransform localPosition,
                               jointName := joint.name, axial := false }
      (.ok (), { ps with robot := some (robot.addHandleEntry handleName handle) })

/-- Robot::addAxialHandle: as addHandle but through AxialHandle::create. -/
def Robot.addAxialHandle (linkName handleName : String) (localPosition : Transform_)
    (ps : ProblemSolver) : Except String Unit × ProblemSolver :=
  match getRobotOrThrow ps with
  | .error e => (.error e, ps)
  | .ok robot =>
    match getJointByBodyNameOrThrow ps linkName with
    | .error e => (.error e, ps)
    | .ok joint =>
      let handle : Handle := { name := handleName,
                               localPosition := decodeTransform localPosition,
                               jointName := joint.name, axial := true }
      (.ok (), { ps with robot := some (robot.addHandleEntry handleName handle) })

/-- Robot::addGripper: require the robot, resolve the attachment joint via
getJointByBodyNameOrThrow, then map each entry of bodyInCollisionNames
through the unchecked Device::getJointByBodyName — a name that resolves to
no joint contributes a null pointer (none) to the list, without any fault —
and register the constructed Gripper under gripperName. -/
def Robot.addGripper (linkName gripperName : String) (p : Transform_)
    (bodyInCollisionNames : List String) (ps : ProblemSolver) :
    Except String Unit × ProblemSolver :=
  match getRobotOrThrow ps with
  | .error e => (.error e, ps)
  | .ok robot =>
    match getJointByBodyNameOrThrow ps linkName with
    | .error e => (.error e, ps)
    | .ok joint =>
      let jointInCollision : List (Option String) :=
        bodyInCollisionNames.map
          (fun bodyName => (robot.getJointByBodyName bodyName).map Joint.name)
      let gripper : Gripper := { name := gripperName, jointName := joint.name,
                                 localPosition := decodeTransform p,
                                 jointsInCollision := jointInCollision }
      (.ok (), { ps with robot := some (robot.addGripperEntry gripperName gripper) })

/-- Problem registry shared by the server modules (hpp-corbaserver
ProblemSolverMap): session storage (index-addressed, so that distinct
sessions with equal contents keep distinct identities), the name-to-session
mapping map_, and the name of the currently selected problem. -/
structure Registry where
  sessions : List ProblemSolver
  map_ : List (String × Nat)
  selected_ : String
deriving DecidableEq

/-- Construction of the registry around the initial problem solver, as
done by the CorbaServer constructor: the initial session is stored under
the default name "default", which is also the selected problem. -/
def Registry.create (ps : ProblemSolver) : Registry :=
  { sessions := [ps], map_ := [("default", 0)], selected_ := "default" }

/-- The session id a shared-registry request is dispatched to: the mapping
entry of the currently selected problem name. -/
def Registry.currentSessionId (r : Registry) : Option Nat :=
  assocLookup r.selected_ r.map_

/-- Modelled from the spec: Problem::selectProblem (its implementation
file problem.impl.cc is not among the provided sources; only the IDL
declaration is). If the name is absent from the registry a new empty
session is created under it and made current and the call returns true;
if the name is present that session is made current, its contents are not
mutated, and the call returns false. -/
def Problem.selectProblem (n : String) (r : Registry) : Bool × Registry :=
  match assocLookup n r.map_ with
  | some _ => (false, { r with selected_ := n })
  | none =>
    (true, { sessions := r.sessions ++ [ProblemSolver.empty],
             map_ := assocSet n r.sessions.length r.map_,
             selected_ := n })

/-- Gripper lookup in the session robot's gripper container. -/
def lookupGripper (ps : ProblemSolver) (n : String) : Option Gripper :=
  ps.robot.bind (fun r => assocLookup n r.grippers)

/-- Handle lookup in the session robot's handle container. -/
def lookupHandle (ps : ProblemSolver) (n : String) : Option Handle :=
  ps.robot.bind (fun r => assocLookup n r.handles)

/-- Modelled from the spec: Problem::createGrasp (its implementation file
problem.impl.cc is not among the provided sources; only the IDL
declaration is). Looks up the gripper and the handle, failing when either
is absent; on success derives exactly two constraints from the handle's
DOF kind and stores them in the session's constraint map under the names
graspName and graspName ++ "/complement". -/
def Problem.createGrasp (graspName gripperName handleName : String)
    (ps : ProblemSolver) : Except String Unit × ProblemSolver :=
  match lookupGripper ps gripperName, lookupHandle ps handleName with
  | some _, some h =>
    (.ok (), { ps with constraints :=
        (graspName, Constraint.grasp gripperName handleName h.axial) ::
        (graspName ++ "/complement",
          Constraint.graspComplement gripperName handleName h.axial) :: ps.constraints })
  | _, _ => (.error "Gripper or handle not found", ps)

/-- Modelled from the spec: Problem::buildAndProjectPath (its
implementation file problem.impl.cc is not among the provided sources;
only the IDL declaration is). The edge-local construction and the
projection are collaborator calls, passed as the construction outcome and
the projection function. Construction failure yields (false, -1, -1) with
nothing appended; on construction success the built path is appended (its
index is indexNotProj) regardless of the projection outcome; projection
failure yields indexProj = -1 and ok = false; on projection success the
projected path is appended as a second entry (its index is indexProj) and
ok = true. -/
def Problem.buildAndProjectPath (build : Option Path) (project : Path → Option Path)
    (ps : ProblemSolver) : (Bool × Int × Int) × ProblemSolver :=
  match build with
  | none => ((false, -1, -1), ps)
  | some p =>
    let indexNotProj : Int := ps.paths.length
    let ps1 := { ps with paths := ps.paths ++ [p] }
    match project p with
    | none => ((false, indexNotProj, -1), ps1)
    | some pp =>
      let indexProj : Int := ps1.paths.length
      ((true, indexNotProj, indexProj), { ps1 with paths := ps1.paths ++ [pp] })

/-- Result of the startup sequence in main (hpp-manipulation-corba.cc):
the shared registry after composition, and, when the RBPRM module is
compiled in, the session id of the standalone problem solver that module
was bound to directly. -/
structure ServerComposition where
  registry : Registry
  rbprmSession : Option Nat
deriving DecidableEq

/-- The state built by main before entering processRequest: the CorbaServer
constructor wraps the freshly created problem solver in the registry; the
manipulation (and optional wholebody-step) modules share that registry and
do not alter it; when the RBPRM module is compiled in, a standalone problem
solver is created, inserted into the registry mapping under the fixed name
"rbprm" (map_["rbprm"] = problemSolverRbprm), and the RBPRM server is bound
to that session directly. The selected problem is left untouched. -/
def mainStartup (hasRbprm : Bool) : ServerComposition :=
  let reg := Registry.create ProblemSolver.empty
  if hasRbprm then
    let rbprmId := reg.sessions.length
    let reg2 : Registry :=
      { reg with sessions := reg.sessions ++ [ProblemSolver.empty],
                 map_ := assocSet "rbprm" rbprmId reg.map_ }
    { registry := reg2, rbprmSession := some rbprmId }
  else
    { registry := reg, rbprmSession := none }

/-- Observable startup events of main, in program order. -/
inductive StartupEvent where
  | createMainProblemSolver
  | createCorbaServerRegistry
  | bindManipServerToRegistry
  | startCorbaServer
  | bindWbsServerToRegistry
  | startWbsEndpoint
  | createRbprmProblemSolver
  | insertIntoRegistry (n : String)
  | bindRbprmServerToSession
  | startRbprmEndpoint
  | startManipEndpoint
  | processRequest
deriving DecidableEq

/-- The event sequence of main, with the two optional feature modules
controlled by their compile-time flags; the request-processing loop is
entered last. -/
def mainEvents (hasWbs hasRbprm : Bool) : List StartupEvent :=
  [.createMainProblemSolver, .createCorbaServerRegistry, .bindManipServerToRegistry,
   .startCorbaServer] ++
  (if hasWbs then [.bindWbsServerToRegistry, .startWbsEndpoint] else []) ++
  (if hasRbprm then [.createRbprmProblemSolver, .insertIntoRegistry "rbprm",
                     .bindRbprmServerToSession, .startRbprmEndpoint] else []) ++
  [.startManipEndpoint, .processRequest]

/-- The joint getOrCreateRobot constructs as the robot's root: an anchor
joint named "base_joint" at the identity transform. -/
def baseJoint : Joint :=
  { name := "base_joint", isAnchor := true,
    positionInParentFrame := Transform3f.setIdentity }

/-- The device getOrCreateRobot constructs when the session has no robot:
a Device named "Robot" whose root is baseJoint. -/
def freshRobotDevice : Device :=
  { Device.create "Robot" with rootJoint := some baseJoint }

theorem getOrCreateRobot_of_none (ps : ProblemSolver) (h : ps.robot = none) :
    getOrCreateRobot ps = (freshRobotDevice, { ps with robot := some freshRobotDevice }) := by
  simp [getOrCreateRobot, h, freshRobotDevice, baseJoint]

theorem getOrCreateRobot_of_some (ps : ProblemSolver) (r : Device)
    (h : ps.robot = some r) : getOrCreateRobot ps = (r, ps) := by
  simp [getOrCreateRobot, h]

theorem getOrCreateRobot_snd_resetCount (ps : ProblemSolver) :
    (getOrCreateRobot ps).2.resetCount = ps.resetCount := by
  cases h : ps.robot with
  | none => rw [getOrCreateRobot_of_none ps h]
  | some r => rw [getOrCreateRobot_of_some ps r h]

theorem getOrCreateRobot_stores (ps : ProblemSolver) :
    (getOrCreateRobot ps).2.robot = some (getOrCreateRobot ps).1 := by
  cases h : ps.robot with
  | none => rw [getOrCreateRobot_of_none ps h]
  | some r => rw [getOrCreateRobot_of_some ps r h]; exact h

theorem insertRobotModel_ok (loadR : Device → String → String → String → String →
      String → String → Except String Device)
    (a b c d e f : String) (ps : ProblemSolver) (r2 : Device)
    (h : loadR (getOrCreateRobot ps).1 a b c d e f = .ok r2) :
    Robot.insertRobotModel loadR a b c d e f ps =
      (.ok (), ProblemSolver.resetProblem { (getOrCreateRobot ps).2 with robot := some r2 }) := by
  simp only [Robot.insertRobotModel]
  rw [h]

theorem insertRobotModel_err (loadR : Device → String → String → String → String →
      String → String → Except String Device)
    (a b c d e f : String) (ps : ProblemSolver) (msg : String)
    (h : loadR (getOrCreateRobot ps).1 a b c d e f = .error msg) :
    Robot.insertRobotModel loadR a b c d e f ps = (.error msg, (getOrCreateRobot ps).2) := by
  simp only [Robot.insertRobotModel]
  rw [h]

theorem insertObjectModel_ok (loadO : Device → String → String → String → String →
      String → String → Except String Device)
    (a b c d e f : String) (ps : ProblemSolver) (r2 : Device)
    (h : loadO (getOrCreateRobot ps).1 a b c d e f = .ok r2) :
    Robot.insertObjectModel loadO a b c d e f ps =
      (.ok (), ProblemSolver.resetProblem { (getOrCreateRobot ps).2 with robot := some r2 }) := by
  simp only [Robot.insertObjectModel]
  rw [h]

theorem insertObjectModel_err (loadO : Device → String → String → String → String →
      String → String → Except String Device)
    (a b c d e f : String) (ps : ProblemSolver) (msg : String)
    (h : loadO (getOrCreateRobot ps).1 a b c d e f = .error msg) :
    Robot.insertObjectModel loadO a b c d e f ps = (.error msg, (getOrCreateRobot ps).2) := by
  simp only [Robot.insertObjectModel]
  rw [h]

theorem insertHumanoidModel_ok (loadH : Device → String → String → String → String →
      String → String → Except String Device)
    (a b c d e f : String) (ps : ProblemSolver) (r2 : Device)
    (h : loadH (getOrCreateRobot ps).1 a b c d e f = .ok r2) :
    Robot.insertHumanoidModel loadH a b c d e f ps =
      (.ok (), ProblemSolver.resetProblem { (getOrCreateRobot ps).2 with robot := some r2 }) := by
  simp only [Robot.insertHumanoidModel]
  rw [h]

theorem insertHumanoidModel_err (loadH : Device → String → String → String → String →
      String → String → Except String Device)
    (a b c d e f : String) (ps : ProblemSolver) (msg : String)
    (h : loadH (getOrCreateRobot ps).1 a b c d e f = .error msg) :
    Robot.insertHumanoidModel loadH a b c d e f ps = (.error msg, (getOrCreateRobot ps).2) := by
  simp only [Robot.insertHumanoidModel]
  rw [h]

theorem loadEnvironmentModel_ok
    (loadE : Device → String → String → String → String → Except String Device)
    (pk env u s pre : String) (ps : ProblemSolver) (object : Device)
    (h : loadE (Device.create env) pk env u s = .ok object) :
    Robot.loadEnvironmentModel loadE pk env u s pre ps =
      (.ok (), { ps with
        obstacles := ps.obstacles ++
          object.collisionObjects.map (fun o => { o with name := pre ++ o.name }),
        triangleLists := ps.triangleLists ++
          object.triangleLists.map (fun kv => (pre ++ kv.1, kv.2)) }) := by
  simp only [Robot.loadEnvironmentModel]
  rw [h]

theorem loadEnvironmentModel_err
    (loadE : Device → String → String → String → String → Except String Device)
    (pk env u s pre : String) (ps : ProblemSolver) (msg : String)
    (h : loadE (Device.create env) pk env u s = .error msg) :
    Robot.loadEnvironmentModel loadE pk env u s pre ps = (.error msg, ps) := by
  simp only [Robot.loadEnvironmentModel]
  rw [h]

/-- Claim C10 (implicit): when a session has no robot, the first call to
insertRobotModel, insertObjectModel or insertHumanoidModel creates a
Device named "Robot" whose root is an anchor joint named "base_joint"
placed at the identity transform and stores it on the session (the device
handed to the model loader is exactly this fresh device, and the loader's
result is what gets stored); every later call to getOrCreateRobot on a
session that has a robot returns that same robot and leaves the session
unmodified, so the creation step runs at most once per session. -/
theorem getOrCreateRobot_lazy_creation :
    (∀ ps : ProblemSolver, ps.robot = none →
      (getOrCreateRobot ps).1.name = "Robot" ∧
      (getOrCreateRobot ps).1.rootJoint =
        some { name := "base_joint", isAnchor := true,
               positionInParentFrame := Transform3f.setIdentity } ∧
      (getOrCreateRobot ps).2 = { ps with robot := some (getOrCreateRobot ps).1 }) ∧
    (∀ (ps : ProblemSolver) (r : Device), ps.robot = some r →
      getOrCreateRobot ps = (r, ps)) ∧
    (∀ (loadR : Device → String → String → String → String → String → String →
        Except String Device)
      (a b c d e f : String) (ps : ProblemSolver) (r2 : Device),
      ps.robot = none →
      loadR freshRobotDevice a b c d e f = .ok r2 →
      (Robot.insertRobotModel loadR a b c d e f ps).2.robot = some r2) := by
  refine ⟨?_, ?_, ?_⟩
  · intro ps h
    rw [getOrCreateRobot_of_none ps h]
    exact ⟨rfl, rfl, rfl⟩
  · intro ps r h
    exact getOrCreateRobot_of_some ps r h
  · intro loadR a b c d e f ps r2 h hl
    have h1 : (getOrCreateRobot ps).1 = freshRobotDevice := by
      rw [getOrCreateRobot_of_none ps h]
    rw [insertRobotModel_ok loadR a b c d e f ps r2 (by rw [h1]; exact hl)]
    rfl

/-- Witness for C10 at concrete inputs: creation from the empty session,
idempotence on the resulting session, and the load result being stored. -/
theorem getOrCreateRobot_lazy_creation_witness :
    (getOrCreateRobot ProblemSolver.empty).1.name = "Robot" ∧
    getOrCreateRobot (getOrCreateRobot ProblemSolver.empty).2 =
      ((getOrCreateRobot ProblemSolver.empty).1, (getOrCreateRobot ProblemSolver.empty).2) ∧
    (Robot.insertRobotModel (fun dv _ _ _ _ _ _ => .ok dv) "r" "t" "p" "m" "u" "s"
        ProblemSolver.empty).2.robot = some freshRobotDevice := by
  refine ⟨(getOrCreateRobot_lazy_creation.1 ProblemSolver.empty rfl).1, ?_, ?_⟩
  · exact getOrCreateRobot_lazy_creation.2.1 (getOrCreateRobot ProblemSolver.empty).2
      (getOrCreateRobot ProblemSolver.empty).1 (getOrCreateRobot_stores ProblemSolver.empty)
  · exact getOrCreateRobot_lazy_creation.2.2 (fun dv _ _ _ _ _ _ => .ok dv)
      "r" "t" "p" "m" "u" "s" ProblemSolver.empty freshRobotDevice rfl rfl

/-- Claim C1, counterexample: loadEnvironmentModel is one of the four
model-loading operations, yet a successful call neither triggers
resetProblem() on the owning session (the reset counter stays 0) nor
creates the session's absent Robot. -/
theorem loadEnvironmentModel_no_reset_counterexample :
    (Robot.loadEnvironmentModel (fun dv _ _ _ _ => .ok dv) "package" "env" "urdf" "srdf"
        "pre" ProblemSolver.empty).1 = .ok () ∧
    (Robot.loadEnvironmentModel (fun dv _ _ _ _ => .ok dv) "package" "env" "urdf" "srdf"
        "pre" ProblemSolver.empty).2.resetCount = 0 ∧
    (Robot.loadEnvironmentModel (fun dv _ _ _ _ => .ok dv) "package" "env" "urdf" "srdf"
        "pre" ProblemSolver.empty).2.robot = none :=
  ⟨rfl, rfl, rfl⟩

/-- Claim C1 as amended: for insertRobotModel, insertObjectModel and
insertHumanoidModel a successful call triggers resetProblem() on the
owning session (the reset counter increments by one) and leaves the
session with a robot (created by getOrCreateRobot when absent); a
successful loadEnvironmentModel, by contrast, triggers no resetProblem()
and never touches the session's robot. -/
theorem modelLoading_reset_and_robot
    (loadR loadO loadH : Device → String → String → String → String → String → String →
      Except String Device)
    (loadE : Device → String → String → String → String → Except String Device)
    (a b c d e f : String) (ps : ProblemSolver) :
    ((Robot.insertRobotModel loadR a b c d e f ps).1 = .ok () →
      (Robot.insertRobotModel loadR a b c d e f ps).2.resetCount = ps.resetCount + 1 ∧
      (Robot.insertRobotModel loadR a b c d e f ps).2.robot ≠ none) ∧
    ((Robot.insertObjectModel loadO a b c d e f ps).1 = .ok () →
      (Robot.insertObjectModel loadO a b c d e f ps).2.resetCount = ps.resetCount + 1 ∧
      (Robot.insertObjectModel loadO a b c d e f ps).2.robot ≠ none) ∧
    ((Robot.insertHumanoidModel loadH a b c d e f ps).1 = .ok () →
      (Robot.insertHumanoidModel loadH a b c d e f ps).2.resetCount = ps.resetCount + 1 ∧
      (Robot.insertHumanoidModel loadH a b c d e f ps).2.robot ≠ none) ∧
    ((Robot.loadEnvironmentModel loadE a b c d e ps).1 = .ok () →
      (Robot.loadEnvironmentModel loadE a b c d e ps).2.robot = ps.robot ∧
      (Robot.loadEnvironmentModel loadE a b c d e ps).2.resetCount = ps.resetCount) := by
  refine ⟨?_, ?_, ?_, ?_⟩
  · intro hok
    cases hl : loadR (getOrCreateRobot ps).1 a b c d e f with
    | error msg => rw [insertRobotModel_err loadR a b c d e f ps msg hl] at hok; simp at hok
    | ok r2 =>
      rw [insertRobotModel_ok loadR a b c d e f ps r2 hl]
      refine ⟨?_, by simp [ProblemSolver.resetProblem]⟩
      simp [ProblemSolver.resetProblem, getOrCreateRobot_snd_resetCount]
  · intro hok
    cases hl : loadO (getOrCreateRobot ps).1 a b c d e f with
    | error msg => rw [insertObjectModel_err loadO a b c d e f ps msg hl] at hok; simp at hok
    | ok r2 =>
      rw [insertObjectModel_ok loadO a b c d e f ps r2 hl]
      refine ⟨?_, by simp [ProblemSolver.resetProblem]⟩
      simp [ProblemSolver.resetProblem, getOrCreateRobot_snd_resetCount]
  · intro hok
    cases hl : loadH (getOrCreateRobot ps).1 a b c d e f with
    | error msg => rw [insertHumanoidModel_err loadH a b c d e f ps msg hl] at hok; simp at hok
    | ok r2 =>
      rw [insertHumanoidModel_ok loadH a b c d e f ps r2 hl]
      refine ⟨?_, by simp [ProblemSolver.resetProblem]⟩
      simp [ProblemSolver.resetProblem, getOrCreateRobot_snd_resetCount]
  · intro hok
    cases hl : loadE (Device.create b) a b c d with
    | error msg => rw [loadEnvironmentModel_err loadE a b c d e ps msg hl] at hok; simp at hok
    | ok object =>
      rw [loadEnvironmentModel_ok loadE a b c d e ps object hl]
      exact ⟨rfl, rfl⟩

/-- Witness for the amended C1 at concrete inputs: a successful robot-model
insertion on the empty session increments the reset counter and leaves a
robot, and a successful environment load changes neither. -/
theorem modelLoading_reset_and_robot_witness :
    ((Robot.insertRobotModel (fun dv _ _ _ _ _ _ => .ok dv) "r" "t" "p" "m" "u" "s"
        ProblemSolver.empty).2.resetCount = ProblemSolver.empty.resetCount + 1 ∧
      (Robot.insertRobotModel (fun dv _ _ _ _ _ _ => .ok dv) "r" "t" "p" "m" "u" "s"
        ProblemSolver.empty).2.robot ≠ none) ∧
    ((Robot.loadEnvironmentModel (fun dv _ _ _ _ => .ok dv) "r" "t" "p" "m" "u"
        ProblemSolver.empty).2.robot = ProblemSolver.empty.robot ∧
      (Robot.loadEnvironmentModel (fun dv _ _ _ _ => .ok dv) "r" "t" "p" "m" "u"
        ProblemSolver.empty).2.resetCount = ProblemSolver.empty.resetCount) := by
  refine ⟨?_, ?_⟩
  · exact (modelLoading_reset_and_robot (fun dv _ _ _ _ _ _ => .ok dv)
      (fun dv _ _ _ _ _ _ => .ok dv) (fun dv _ _ _ _ _ _ => .ok dv)
      (fun dv _ _ _ _ => .ok dv) "r" "t" "p" "m" "u" "s" ProblemSolver.empty).1 rfl
  · exact (modelLoading_reset_and_robot (fun dv _ _ _ _ _ _ => .ok dv)
      (fun dv _ _ _ _ _ _ => .ok dv) (fun dv _ _ _ _ _ _ => .ok dv)
      (fun dv _ _ _ _ => .ok dv) "r" "t" "p" "m" "u" "s" ProblemSolver.empty).2.2.2 rfl

theorem assocLookup_cons_self {α : Type} (k : String) (v : α) (l : List (String × α)) :
    assocLookup k ((k, v) :: l) = some v := by
  simp [assocLookup]

theorem addHandle_ok (ps : ProblemSolver) (robot : Device) (j : Joint)
    (link hname : String) (p : Transform_)
    (hr : ps.robot = some robot) (hj : robot.getJointByBodyName link = some j) :
    Robot.addHandle link hname p ps =
      (.ok (), { ps with robot := some (robot.addHandleEntry hname
        { name := hname, localPosition := decodeTransform p, jointName := j.name,
          axial := false }) }) := by
  simp [Robot.addHandle, getRobotOrThrow, getJointByBodyNameOrThrow, hr, hj]

theorem addAxialHandle_ok (ps : ProblemSolver) (robot : Device) (j : Joint)
    (link hname : String) (p : Transform_)
    (hr : ps.robot = some robot) (hj : robot.getJointByBodyName link = some j) :
    Robot.addAxialHandle link hname p ps =
      (.ok (), { ps with robot := some (robot.addHandleEntry hname
        { name := hname, localPosition := decodeTransform p, jointName := j.name,
          axial := true }) }) := by
  simp [Robot.addAxialHandle, getRobotOrThrow, getJointByBodyNameOrThrow, hr, hj]

theorem addGripper_ok (ps : ProblemSolver) (robot : Device) (j : Joint)
    (link gname : String) (p : Transform_) (names : List String)
    (hr : ps.robot = some robot) (hj : robot.getJointByBodyName link = some j) :
    Robot.addGripper link gname p names ps =
      (.ok (), { ps with robot := some (robot.addGripperEntry gname
        { name := gname, jointName := j.name, localPosition := decodeTransform p,
          jointsInCollision :=
            names.map (fun n2 => (robot.getJointByBodyName n2).map Joint.name) }) }) := by
  simp [Robot.addGripper, getRobotOrThrow, getJointByBodyNameOrThrow, hr, hj]

/-- Claim C8: addHandle on a session whose robot has not been created
fails with the "Robot not found." fault and registers nothing (the session
is returned unchanged); after a successful insertRobotModel on that
session whose loaded robot resolves the named link to a joint, the same
addHandle call succeeds and registers the handle under handleName. -/
theorem addHandle_robot_lifecycle (ps : ProblemSolver) (link hname : String)
    (p : Transform_)
    (loadR : Device → String → String → String → String → String → String →
      Except String Device)
    (a b c d e f : String)
    (h : ps.robot = none) :
    Robot.addHandle link hname p ps = (.error "Robot not found.", ps) ∧
    (∀ (r1 : Device) (j : Joint),
      (Robot.insertRobotModel loadR a b c d e f ps).1 = .ok () →
      (Robot.insertRobotModel loadR a b c d e f ps).2.robot = some r1 →
      r1.getJointByBodyName link = some j →
      (Robot.addHandle link hname p (Robot.insertRobotModel loadR a b c d e f ps).2).1 =
        .ok () ∧
      lookupHandle
        (Robot.addHandle link hname p (Robot.insertRobotModel loadR a b c d e f ps).2).2
        hname =
        some { name := hname, localPosition := decodeTransform p, jointName := j.name,
               axial := false }) := by
  constructor
  · simp [Robot.addHandle, getRobotOrThrow, h]
  · intro r1 j _ h1 hj
    rw [addHandle_ok (Robot.insertRobotModel loadR a b c d e f ps).2 r1 j link hname p h1 hj]
    refine ⟨rfl, ?_⟩
    simp [lookupHandle, Device.addHandleEntry, assocLookup]

/-- Witness for C8 at concrete inputs: the empty session rejects addHandle
with "Robot not found.", and after an insertRobotModel whose loader adds a
body named "link", the same addHandle succeeds and the handle is found
under its name. -/
theorem addHandle_robot_lifecycle_witness :
    Robot.addHandle "link" "h1" (encodeTransform Transform3f.setIdentity)
        ProblemSolver.empty =
      (.error "Robot not found.", ProblemSolver.empty) ∧
    (Robot.addHandle "link" "h1" (encodeTransform Transform3f.setIdentity)
        (Robot.insertRobotModel
          (fun dv _ _ _ _ _ _ => .ok { dv with bodyToJoint := [("link", baseJoint)] })
          "r" "t" "p" "m" "u" "s" ProblemSolver.empty).2).1 = .ok () := by
  have hmain := addHandle_robot_lifecycle ProblemSolver.empty "link" "h1"
    (encodeTransform Transform3f.setIdentity)
    (fun dv _ _ _ _ _ _ => .ok { dv with bodyToJoint := [("link", baseJoint)] })
    "r" "t" "p" "m" "u" "s" rfl
  refine ⟨hmain.1, ?_⟩
  exact (hmain.2 { freshRobotDevice with bodyToJoint := [("link", baseJoint)] } baseJoint
    rfl rfl rfl).1

/-- A concrete device that resolves exactly one body name, "link". -/
def linkOnlyDevice : Device :=
  { Device.create "Robot" with bodyToJoint := [("link", baseJoint)] }

/-- A concrete session whose robot is linkOnlyDevice. -/
def linkOnlyState : ProblemSolver :=
  { ProblemSolver.empty with robot := some linkOnlyDevice }

/-- Claim C5, counterexample: in a session whose robot resolves the body
"link" but has no body named "ghost", addGripper with bodyNamesInCollision
= ["ghost"] succeeds — no BodyNotFound-class fault is raised for the
unresolved entry — and the Gripper is registered anyway, carrying a null
(none) entry in its collision-joint list. -/
theorem addGripper_unchecked_bodies_counterexample :
    linkOnlyDevice.getJointByBodyName "ghost" = none ∧
    (Robot.addGripper "link" "grip" (encodeTransform Transform3f.setIdentity) ["ghost"]
        linkOnlyState).1 = .ok () ∧
    lookupGripper
      (Robot.addGripper "link" "grip" (encodeTransform Transform3f.setIdentity) ["ghost"]
        linkOnlyState).2 "grip" =
      some { name := "grip", jointName := "base_joint",
             localPosition := Transform3f.setIdentity, jointsInCollision := [none] } := by
  refine ⟨rfl, rfl, ?_⟩
  rfl

/-- Claim C5 as amended: addGripper resolves only the attachment link
through the throwing lookup; each entry of bodyNamesInCollision is looked
up through the unchecked Device::getJointByBodyName, so an entry that does
not resolve to any joint contributes a null (none) reference to the
gripper's collision list without raising any fault, and the Gripper is
constructed and registered whenever the robot exists and the attachment
link resolves, regardless of how many entries resolve. -/
theorem addGripper_registers_with_unchecked_bodies (ps : ProblemSolver)
    (robot : Device) (j : Joint) (link gname : String) (p : Transform_)
    (names : List String)
    (hr : ps.robot = some robot) (hj : robot.getJointByBodyName link = some j) :
    Robot.addGripper link gname p names ps =
      (.ok (), { ps with robot := some (robot.addGripperEntry gname
        { name := gname, jointName := j.name, localPosition := decodeTransform p,
          jointsInCollision :=
            names.map (fun n2 => (robot.getJointByBodyName n2).map Joint.name) }) }) :=
  addGripper_ok ps robot j link gname p names hr hj

/-- Witness for the amended C5 at concrete inputs: with one resolvable and
one unresolvable collision-body name, the call succeeds and registers the
gripper whose collision list holds one resolved name and one none. -/
theorem addGripper_registers_with_unchecked_bodies_witness :
    Robot.addGripper "link" "grip" (encodeTransform Transform3f.setIdentity)
        ["link", "ghost"] linkOnlyState =
      (.ok (), { linkOnlyState with robot := some (linkOnlyDevice.addGripperEntry "grip"
          { name := "grip", jointName := "base_joint",
            localPosition := Transform3f.setIdentity,
            jointsInCollision := [some "base_joint", none] }) }) := by
  have hmain := addGripper_registers_with_unchecked_bodies linkOnlyState linkOnlyDevice
    baseJoint "link" "grip" (encodeTransform Transform3f.setIdentity)
    ["link", "ghost"] rfl rfl
  rw [hmain]
  rfl

theorem scanChildren_of_mem (pre : String) (l : List Joint) (j : Joint)
    (hj : j ∈ l) (hm : strStartsWith j.name pre = true) :
    ∃ k, scanChildren pre l = some k := by
  induction l with
  | nil => cases hj
  | cons a t ih =>
    by_cases ha : strStartsWith a.name pre = true
    · exact ⟨a, by simp [scanChildren, ha]⟩
    · cases hj with
      | head => exact absurd hm ha
      | tail _ hj2 =>
        obtain ⟨k, hk⟩ := ih hj2
        exact ⟨k, by simp [scanChildren, ha, hk]⟩

theorem scanChildren_setScanChildren (pre : String) (T : Transform3f) (l : List Joint)
    (j : Joint) (h : scanChildren pre l = some j) :
    scanChildren pre (setScanChildren pre T l) =
      some { j with positionInParentFrame := T } := by
  induction l with
  | nil => simp [scanChildren] at h
  | cons a t ih =>
    by_cases ha : strStartsWith a.name pre = true
    · simp only [scanChildren, ha, if_true, Option.some.injEq] at h
      subst h
      simp [setScanChildren, ha, scanChildren]
    · simp only [scanChildren, ha, if_false, Bool.false_eq_true] at h
      simp [setScanChildren, ha, scanChildren, ih h]

theorem setRootJointPosition_ok (ps : ProblemSolver) (robot : Device) (pre : String)
    (p : Transform_) (k : Joint)
    (hr : ps.robot = some robot) (hk : scanChildren pre robot.childJoints = some k) :
    Robot.setRootJointPosition pre p ps =
      (.ok (), { ps with robot := some { robot with
        childJoints := setScanChildren pre (decodeTransform p) robot.childJoints } }) := by
  simp [Robot.setRootJointPosition, getRobotOrThrow, hr, hk]

theorem getRootJointPosition_ok (ps : ProblemSolver) (robot : Device) (pre : String)
    (k : Joint)
    (hr : ps.robot = some robot) (hk : scanChildren pre robot.childJoints = some k) :
    Robot.getRootJointPosition pre ps =
      (.ok (encodeTransform k.positionInParentFrame), ps) := by
  simp [Robot.getRootJointPosition, getRobotOrThrow, hr, hk]

theorem encodeTransform_decodeTransform (p : Transform_) :
    encodeTransform (decodeTransform p) = p := rfl

/-- Claim C6: for every 7-tuple pose with unit quaternion part and every
prefix matching some immediate child of the root joint, a successful
setRootJointPosition followed by getRootJointPosition with the same prefix
returns the written pose, each component within tolerance 1e-9 (here the
round trip is exact over the rationals, hence within tolerance). -/
theorem setThenGetRootJointPosition_roundtrip
    (ps : ProblemSolver) (robot : Device) (pre : String) (p : Transform_)
    (hr : ps.robot = some robot)
    (_hunit : p.e3 ^ 2 + p.e4 ^ 2 + p.e5 ^ 2 + p.e6 ^ 2 = 1)
    (hmatch : ∃ j ∈ robot.childJoints, strStartsWith j.name pre = true) :
    (Robot.setRootJointPosition pre p ps).1 = .ok () ∧
    ∃ res : Transform_,
      (Robot.getRootJointPosition pre (Robot.setRootJointPosition pre p ps).2).1 =
        .ok res ∧
      |res.e0 - p.e0| ≤ 1 / 1000000000 ∧ |res.e1 - p.e1| ≤ 1 / 1000000000 ∧
      |res.e2 - p.e2| ≤ 1 / 1000000000 ∧ |res.e3 - p.e3| ≤ 1 / 1000000000 ∧
      |res.e4 - p.e4| ≤ 1 / 1000000000 ∧ |res.e5 - p.e5| ≤ 1 / 1000000000 ∧
      |res.e6 - p.e6| ≤ 1 / 1000000000 := by
  obtain ⟨j, hj, hm⟩ := hmatch
  obtain ⟨k, hk⟩ := scanChildren_of_mem pre robot.childJoints j hj hm
  have hset := setRootJointPosition_ok ps robot pre p k hr hk
  have hscan2 := scanChildren_setScanChildren pre (decodeTransform p)
    robot.childJoints k hk
  have hget := getRootJointPosition_ok (Robot.setRootJointPosition pre p ps).2
    { robot with childJoints :=
        setScanChildren pre (decodeTransform p) robot.childJoints }
    pre { k with positionInParentFrame := decodeTransform p }
    (by rw [hset]) hscan2
  refine ⟨by rw [hset], p, ?_, ?_, ?_, ?_, ?_, ?_, ?_, ?_⟩
  · rw [hget]
    rw [show ({ k with positionInParentFrame := decodeTransform p } :
        Joint).positionInParentFrame = decodeTransform p from rfl]
    rw [encodeTransform_decodeTransform]
  all_goals simp

/-- A concrete child joint whose name starts with "root". -/
def rootChild : Joint :=
  { name := "rootjoint_x", isAnchor := false,
    positionInParentFrame := Transform3f.setIdentity }

/-- A concrete robot whose root joint has one immediate child, rootChild. -/
def childDevice : Device :=
  { Device.create "Robot" with childJoints := [rootChild] }

/-- A concrete session whose robot is childDevice. -/
def childState : ProblemSolver :=
  { ProblemSolver.empty with robot := some childDevice }

/-- A concrete wire pose with unit quaternion part. -/
def unitWire : Transform_ :=
  { e0 := 5, e1 := -2, e2 := 3 / 2, e3 := 0, e4 := 0, e5 := 0, e6 := 1 }

/-- Witness for C6 at concrete inputs. -/
theorem setThenGetRootJointPosition_roundtrip_witness :
    (Robot.setRootJointPosition "root" unitWire childState).1 = .ok () ∧
    ∃ res : Transform_,
      (Robot.getRootJointPosition "root"
        (Robot.setRootJointPosition "root" unitWire childState).2).1 = .ok res ∧
      |res.e0 - unitWire.e0| ≤ 1 / 1000000000 ∧ |res.e1 - unitWire.e1| ≤ 1 / 1000000000 ∧
      |res.e2 - unitWire.e2| ≤ 1 / 1000000000 ∧ |res.e3 - unitWire.e3| ≤ 1 / 1000000000 ∧
      |res.e4 - unitWire.e4| ≤ 1 / 1000000000 ∧ |res.e5 - unitWire.e5| ≤ 1 / 1000000000 ∧
      |res.e6 - unitWire.e6| ≤ 1 / 1000000000 :=
  setThenGetRootJointPosition_roundtrip childState childDevice "root" unitWire rfl
    (by norm_num [unitWire]) ⟨rootChild, by decide, by decide⟩

/-- Claim C7: every operation decoding the 7-number wire transform
(setRootJointPosition, addHandle, addAxialHandle, addGripper) interprets
elements 0-2 as the translation x, y, z and elements 3-6 as the quaternion
components in the order x, y, z, w (the labelling of the collaborator
quaternion slots follows the spec's wire convention, the component order
itself the source's positional arguments), and getRootJointPosition
encodes the internal transform back in that same order, inverting the
decoding exactly. -/
theorem wireTransform_xyzw_convention :
    (∀ p : Transform_,
      (decodeTransform p).v.x = p.e0 ∧ (decodeTransform p).v.y = p.e1 ∧
      (decodeTransform p).v.z = p.e2 ∧ (decodeTransform p).q.x = p.e3 ∧
      (decodeTransform p).q.y = p.e4 ∧ (decodeTransform p).q.z = p.e5 ∧
      (decodeTransform p).q.w = p.e6) ∧
    (∀ T : Transform3f,
      (encodeTransform T).e0 = T.v.x ∧ (encodeTransform T).e1 = T.v.y ∧
      (encodeTransform T).e2 = T.v.z ∧ (encodeTransform T).e3 = T.q.x ∧
      (encodeTransform T).e4 = T.q.y ∧ (encodeTransform T).e5 = T.q.z ∧
      (encodeTransform T).e6 = T.q.w) ∧
    (∀ p : Transform_, encodeTransform (decodeTransform p) = p) ∧
    (∀ (ps : ProblemSolver) (robot : Device) (k : Joint) (pre : String)
        (p : Transform_),
      ps.robot = some robot → scanChildren pre robot.childJoints = some k →
      Robot.setRootJointPosition pre p ps =
        (.ok (), { ps with robot := some { robot with
          childJoints := setScanChildren pre (decodeTransform p) robot.childJoints } }) ∧
      Robot.getRootJointPosition pre ps =
        (.ok (encodeTransform k.positionInParentFrame), ps)) ∧
    (∀ (ps : ProblemSolver) (robot : Device) (j : Joint) (link hname : String)
        (p : Transform_),
      ps.robot = some robot → robot.getJointByBodyName link = some j →
      lookupHandle (Robot.addHandle link hname p ps).2 hname =
        some { name := hname, localPosition := decodeTransform p, jointName := j.name,
               axial := false } ∧
      lookupHandle (Robot.addAxialHandle link hname p ps).2 hname =
        some { name := hname, localPosition := decodeTransform p, jointName := j.name,
               axial := true } ∧
      lookupGripper (Robot.addGripper link hname p [] ps).2 hname =
        some { name := hname, jointName := j.name, localPosition := decodeTransform p,
               jointsInCollision := [] }) := by
  refine ⟨?_, ?_, ?_, ?_, ?_⟩
  · intro p; exact ⟨rfl, rfl, rfl, rfl, rfl, rfl, rfl⟩
  · intro T; exact ⟨rfl, rfl, rfl, rfl, rfl, rfl, rfl⟩
  · intro p; exact encodeTransform_decodeTransform p
  · intro ps robot k pre p hr hk
    exact ⟨setRootJointPosition_ok ps robot pre p k hr hk,
           getRootJointPosition_ok ps robot pre k hr hk⟩
  · intro ps robot j link hname p hr hj
    refine ⟨?_, ?_, ?_⟩
    · rw [addHandle_ok ps robot j link hname p hr hj]
      simp [lookupHandle, Device.addHandleEntry, assocLookup]
    · rw [addAxialHandle_ok ps robot j link hname p hr hj]
      simp [lookupHandle, Device.addHandleEntry, assocLookup]
    · rw [addGripper_ok ps robot j link hname p [] hr hj]
      simp [lookupGripper, Device.addGripperEntry, assocLookup]

/-- Witness for C7 at concrete inputs: the stored root-child pose is the
decoded wire transform and a registered handle carries the decoded local
pose. -/
theorem wireTransform_xyzw_convention_witness :
    Robot.setRootJointPosition "root" unitWire childState =
      (.ok (), { childState with robot := some { childDevice with
        childJoints := setScanChildren "root" (decodeTransform unitWire)
          childDevice.childJoints } }) ∧
    lookupHandle (Robot.addHandle "link" "h1" unitWire linkOnlyState).2 "h1" =
      some { name := "h1", localPosition := decodeTransform unitWire,
             jointName := "base_joint", axial := false } := by
  have h4 := wireTransform_xyzw_convention.2.2.2.1 childState childDevice rootChild
    "root" unitWire rfl (by decide)
  have h5 := wireTransform_xyzw_convention.2.2.2.2 linkOnlyState linkOnlyDevice baseJoint
    "link" "h1" unitWire rfl rfl
  exact ⟨h4.1, h5.1⟩

theorem assocLookup_assocSet_self {α : Type} (k : String) (v : α)
    (l : List (String × α)) : assocLookup k (assocSet k v l) = some v := by
  induction l with
  | nil => simp [assocSet, assocLookup]
  | cons kv t ih =>
    obtain ⟨k2, v2⟩ := kv
    by_cases h : k2 = k
    · simp [assocSet, assocLookup, h]
    · simp [assocSet, assocLookup, h, ih]

theorem selectProblem_of_none (n : String) (r : Registry)
    (h : assocLookup n r.map_ = none) :
    Problem.selectProblem n r =
      (true, { sessions := r.sessions ++ [ProblemSolver.empty],
               map_ := assocSet n r.sessions.length r.map_, selected_ := n }) := by
  unfold Problem.selectProblem
  rw [h]

theorem selectProblem_of_some (n : String) (r : Registry) (i : Nat)
    (h : assocLookup n r.map_ = some i) :
    Problem.selectProblem n r = (false, { r with selected_ := n }) := by
  unfold Problem.selectProblem
  rw [h]

theorem assocLookup_after_select (n : String) (r : Registry) :
    ∃ i, assocLookup n (Problem.selectProblem n r).2.map_ = some i := by
  cases h : assocLookup n r.map_ with
  | none =>
    rw [selectProblem_of_none n r h]
    exact ⟨r.sessions.length, assocLookup_assocSet_self n r.sessions.length r.map_⟩
  | some i =>
    rw [selectProblem_of_some n r i h]
    exact ⟨i, h⟩

/-- Claim C2: selectProblem(n) returns true exactly when n is not yet
present in the problem registry, in which case it creates an empty session
under n and makes it current; when n is present it returns false, makes
that session current and mutates nothing else; in particular every
subsequent call with the same n returns false and leaves the sessions and
the mapping — hence the session's contents — unchanged, only re-selecting
n. -/
theorem selectProblem_first_use (n : String) (r : Registry) :
    ((Problem.selectProblem n r).1 = true ↔ assocLookup n r.map_ = none) ∧
    (assocLookup n r.map_ = none →
      (Problem.selectProblem n r).2 =
        { sessions := r.sessions ++ [ProblemSolver.empty],
          map_ := assocSet n r.sessions.length r.map_, selected_ := n }) ∧
    (∀ i : Nat, assocLookup n r.map_ = some i →
      Problem.selectProblem n r = (false, { r with selected_ := n })) ∧
    ((Problem.selectProblem n (Problem.selectProblem n r).2).1 = false ∧
      (Problem.selectProblem n (Problem.selectProblem n r).2).2 =
        { (Problem.selectProblem n r).2 with selected_ := n }) := by
  refine ⟨?_, ?_, ?_, ?_⟩
  · cases h : assocLookup n r.map_ with
    | none => rw [selectProblem_of_none n r h]; simp
    | some i => rw [selectProblem_of_some n r i h]; simp [h]
  · intro h
    rw [selectProblem_of_none n r h]
  · intro i h
    rw [selectProblem_of_some n r i h]
  · obtain ⟨i2, hi2⟩ := assocLookup_after_select n r
    rw [selectProblem_of_some n (Problem.selectProblem n r).2 i2 hi2]
    exact ⟨rfl, rfl⟩

/-- Witness for C2 at concrete inputs: first use of "p1" on the freshly
created registry creates the session and selects it; the name "default" is
already present, so selecting it returns false and only re-selects. -/
theorem selectProblem_first_use_witness :
    ((Problem.selectProblem "p1" (Registry.create ProblemSolver.empty)).1 = true ↔
      assocLookup "p1" (Registry.create ProblemSolver.empty).map_ = none) ∧
    (Problem.selectProblem "p1" (Registry.create ProblemSolver.empty)).2 =
      { sessions := (Registry.create ProblemSolver.empty).sessions ++
          [ProblemSolver.empty],
        map_ := assocSet "p1" 1 (Registry.create ProblemSolver.empty).map_,
        selected_ := "p1" } ∧
    Problem.selectProblem "default" (Registry.create ProblemSolver.empty) =
      (false, { Registry.create ProblemSolver.empty with selected_ := "default" }) := by
  refine ⟨(selectProblem_first_use "p1" (Registry.create ProblemSolver.empty)).1, ?_, ?_⟩
  · exact (selectProblem_first_use "p1" (Registry.create ProblemSolver.empty)).2.1 rfl
  · exact (selectProblem_first_use "default"
      (Registry.create ProblemSolver.empty)).2.2.1 0 rfl

/-- A concrete axial handle on the base joint. -/
def axialFixtureHandle : Handle :=
  { name := "obj/h", localPosition := Transform3f.setIdentity,
    jointName := "base_joint", axial := true }

/-- A concrete gripper on the base joint. -/
def fixtureGripper : Gripper :=
  { name := "grp", jointName := "base_joint",
    localPosition := Transform3f.setIdentity, jointsInCollision := [] }

/-- A concrete robot carrying the gripper "grp" and the axial handle
"obj/h". -/
def graspDevice : Device :=
  { Device.create "Robot" with
    handles := [("obj/h", axialFixtureHandle)],
    grippers := [("grp", fixtureGripper)] }

/-- A concrete session whose robot is graspDevice. -/
def graspState : ProblemSolver :=
  { ProblemSolver.empty with robot := some graspDevice }

/-- Claim C3: for every gripper and every handle whose DOF kind is axial,
a successful createGrasp(g, gripper, handle) adds to the session's
constraint map exactly the two constraints named g and g ++ "/complement"
(byte-for-byte naming) and no other names: the resulting constraint map is
those two entries prepended to the previous one. -/
theorem createGrasp_axial_exact_names (g gname hname : String) (ps : ProblemSolver)
    (grip : Gripper) (hdl : Handle)
    (hg : lookupGripper ps gname = some grip)
    (hh : lookupHandle ps hname = some hdl)
    (hax : hdl.axial = true) :
    (Problem.createGrasp g gname hname ps).1 = .ok () ∧
    (Problem.createGrasp g gname hname ps).2.constraints =
      (g, Constraint.grasp gname hname true) ::
      (g ++ "/complement", Constraint.graspComplement gname hname true) ::
      ps.constraints := by
  unfold Problem.createGrasp
  rw [hg, hh]
  simp [hax]

/-- Witness for C3 at concrete inputs: the two constraint names are
byte-for-byte "g" and "g/complement" and nothing else is added. -/
theorem createGrasp_axial_exact_names_witness :
    (Problem.createGrasp "g" "grp" "obj/h" graspState).1 = .ok () ∧
    (Problem.createGrasp "g" "grp" "obj/h" graspState).2.constraints =
      [("g", Constraint.grasp "grp" "obj/h" true),
       ("g/complement", Constraint.graspComplement "grp" "obj/h" true)] := by
  have h := createGrasp_axial_exact_names "g" "grp" "obj/h" graspState
    fixtureGripper axialFixtureHandle rfl rfl rfl
  refine ⟨h.1, ?_⟩
  rw [h.2]
  rfl

/-- Claim C4: buildAndProjectPath reports (ok, indexNotProj, indexProj) =
(false, -1, -1) with no path appended when construction fails; when
construction succeeds but projection fails it reports indexNotProj equal
to the constructed path's index (nonnegative) and indexProj = -1, with the
constructed path remaining appended despite the reported failure; when
both succeed it reports ok = true and two valid, distinct indices, and
exactly two path entries are appended in that call. -/
theorem buildAndProjectPath_cases (ps : ProblemSolver) (build : Option Path)
    (project : Path → Option Path) :
    (build = none →
      Problem.buildAndProjectPath build project ps = ((false, -1, -1), ps)) ∧
    (∀ p : Path, build = some p → project p = none →
      Problem.buildAndProjectPath build project ps =
        ((false, (ps.paths.length : Int), -1), { ps with paths := ps.paths ++ [p] }) ∧
      (0 : Int) ≤ (ps.paths.length : Int)) ∧
    (∀ p pp : Path, build = some p → project p = some pp →
      Problem.buildAndProjectPath build project ps =
        ((true, (ps.paths.length : Int), (ps.paths.length : Int) + 1),
          { ps with paths := ps.paths ++ [p] ++ [pp] }) ∧
      (ps.paths.length : Int) ≠ (ps.paths.length : Int) + 1 ∧
      (0 : Int) ≤ (ps.paths.length : Int) ∧
      (ps.paths.length : Int) < ((ps.paths ++ [p] ++ [pp]).length : Int) ∧
      (ps.paths.length : Int) + 1 < ((ps.paths ++ [p] ++ [pp]).length : Int) ∧
      (ps.paths ++ [p] ++ [pp]).length = ps.paths.length + 2) := by
  refine ⟨?_, ?_, ?_⟩
  · intro h
    simp [Problem.buildAndProjectPath, h]
  · intro p hb hp
    constructor
    · simp [Problem.buildAndProjectPath, hb, hp]
    · exact Int.natCast_nonneg _
  · intro p pp hb hp
    refine ⟨?_, by omega, Int.natCast_nonneg _, ?_, ?_, by simp⟩
    · simp [Problem.buildAndProjectPath, hb, hp, List.length_append]
    · simp [List.length_append]
    · simp [List.length_append]

/-- Witness for C4 at concrete inputs: the failing-projection case appends
one entry and reports (false, 0, -1); the succeeding case reports
(true, 0, 1) and appends two entries. -/
theorem buildAndProjectPath_cases_witness :
    Problem.buildAndProjectPath (some { payload := 7 }) (fun _ => none)
        ProblemSolver.empty =
      ((false, 0, -1), { ProblemSolver.empty with paths := [{ payload := 7 }] }) ∧
    Problem.buildAndProjectPath (some { payload := 7 })
        (fun q => some { payload := q.payload + 1 }) ProblemSolver.empty =
      ((true, 0, 1), { ProblemSolver.empty with
        paths := [{ payload := 7 }, { payload := 8 }] }) := by
  constructor
  · have h := (buildAndProjectPath_cases ProblemSolver.empty (some { payload := 7 })
      (fun _ => none)).2.1 { payload := 7 } rfl rfl
    rw [h.1]
    rfl
  · have h := (buildAndProjectPath_cases ProblemSolver.empty (some { payload := 7 })
      (fun q => some { payload := q.payload + 1 })).2.2 { payload := 7 }
      { payload := 8 } rfl rfl
    rw [h.1]
    rfl

/-- Claim C9: with the RBPRM feature module compiled in, startup
constructs a standalone session, inserts it into the shared registry's
mapping under the fixed reserved name "rbprm" — and this insertion event
precedes the entry into the request-processing loop — and binds the RBPRM
module to exactly that session; the currently selected problem is left
at the default, so the session shared-registry requests are dispatched to
differs from the RBPRM session until a client calls selectProblem with the
reserved name, after which the current session is the RBPRM one. -/
theorem rbprmComposition (hasWbs : Bool) :
    ((mainStartup true).registry.sessions.length = 2 ∧
      assocLookup "rbprm" (mainStartup true).registry.map_ = some 1 ∧
      (mainStartup true).rbprmSession = some 1) ∧
    ((mainStartup true).registry.selected_ = "default" ∧
      Registry.currentSessionId (mainStartup true).registry = some 0 ∧
      Registry.currentSessionId (mainStartup true).registry ≠
        (mainStartup true).rbprmSession) ∧
    Registry.currentSessionId
      (Problem.selectProblem "rbprm" (mainStartup true).registry).2 = some 1 ∧
    (∃ before : List StartupEvent,
      mainEvents hasWbs true = before ++ [StartupEvent.processRequest] ∧
      StartupEvent.insertIntoRegistry "rbprm" ∈ before) := by
  refine ⟨⟨by decide, by decide, by decide⟩, ⟨by decide, by decide, by decide⟩,
    by decide, ?_⟩
  cases hasWbs with
  | false =>
    exact ⟨[.createMainProblemSolver, .createCorbaServerRegistry,
      .bindManipServerToRegistry, .startCorbaServer, .createRbprmProblemSolver,
      .insertIntoRegistry "rbprm", .bindRbprmServerToSession, .startRbprmEndpoint,
      .startManipEndpoint], by decide, by decide⟩
  | true =>
    exact ⟨[.createMainProblemSolver, .createCorbaServerRegistry,
      .bindManipServerToRegistry, .startCorbaServer, .bindWbsServerToRegistry,
      .startWbsEndpoint, .createRbprmProblemSolver, .insertIntoRegistry "rbprm",
      .bindRbprmServerToSession, .startRbprmEndpoint, .startManipEndpoint],
      by decide, by decide⟩

end Hpp
